import Mathlib

/-!
Verification of the pose codec in `parameters_display_gui.py`, the XVR
pose viewer widget.  The widget loads a parameter record, selects or
reconstructs a 4x4 homogeneous rigid pose (`final_pose` directly, or
built from `rotations`/`translations` via the scipy ZXY intrinsic Euler
convention), and decomposes it into three rotation angles in degrees and
three translations in millimeters for a read-only display.  Real numbers
stand for the floating-point values of the source; notifications model
the `show_info` calls, in order.
-/

namespace XVR

/-- Model of the math-library `atan2` with range `(-π, π]`, expressed via
the complex argument: `atan2 y x = arg (x + y i)`. -/
noncomputable def atan2 (y x : ℝ) : ℝ := Complex.arg (x + y * Complex.I)

/-- Elementary rotation about the Z axis by `a` radians. -/
noncomputable def rotZmat (a : ℝ) : Matrix (Fin 3) (Fin 3) ℝ :=
  !![Real.cos a, -Real.sin a, 0;
     Real.sin a, Real.cos a, 0;
     0, 0, 1]

/-- Elementary rotation about the X axis by `b` radians. -/
noncomputable def rotXmat (b : ℝ) : Matrix (Fin 3) (Fin 3) ℝ :=
  !![1, 0, 0;
     0, Real.cos b, -Real.sin b;
     0, Real.sin b, Real.cos b]

/-- Elementary rotation about the Y axis by `c` radians. -/
noncomputable def rotYmat (c : ℝ) : Matrix (Fin 3) (Fin 3) ℝ :=
  !![Real.cos c, 0, Real.sin c;
     0, 1, 0;
     -Real.sin c, 0, Real.cos c]

/-- Model of `Rotation.from_euler("ZXY", [a, b, c]).as_matrix()` (scipy):
uppercase axes are intrinsic rotations, which compose by right
multiplication, so the matrix is `Rz(a) * Rx(b) * Ry(c)`. -/
noncomputable def from_euler_ZXY (a b c : ℝ) : Matrix (Fin 3) (Fin 3) ℝ :=
  rotZmat a * rotXmat b * rotYmat c

/-- Model of `Rotation.from_matrix(M).as_euler("ZXY")` in radians: for the
Tait-Bryan sequence ZXY the second angle is `arcsin M[2][1]` and the outer
two come from `atan2` on the adjacent entries. -/
noncomputable def as_euler_ZXY (M : Matrix (Fin 3) (Fin 3) ℝ) : Fin 3 → ℝ :=
  ![atan2 (-M 0 1) (M 1 1), Real.arcsin (M 2 1), atan2 (-M 2 0) (M 2 2)]

/-- The `degrees=True` output conversion of `as_euler`. -/
noncomputable def rad2deg (x : ℝ) : ℝ := x * 180 / Real.pi

/-- A torch/numpy tensor: a shape together with its row-major flat
entries (entries beyond the extent of the shape are irrelevant). -/
structure Tensor where
  shape : List ℕ
  data : ℕ → ℝ

/-- `.squeeze()`: drop every axis of extent 1; the flat data is unchanged. -/
def Tensor.squeeze (t : Tensor) : Tensor :=
  ⟨t.shape.filter (fun n => n ≠ 1), t.data⟩

/-- `np.atleast_1d` at the level of shapes: a 0-d array becomes shape `[1]`,
anything else is unchanged. -/
def atleast_1d (s : List ℕ) : List ℕ := if s = [] then [1] else s

/-- A value stored under a key of the record dictionary: either a tensor,
or anything else (on which `isinstance(_, torch.Tensor)` is false). -/
inductive Value where
  | tensor (t : Tensor)
  | nonTensor

/-- The loaded parameter dictionary, restricted to the keys the widget
reads: `final_pose`, `rotations` and `translations`. -/
structure Record where
  final_pose : Option Value
  rotations : Option Tensor
  translations : Option Tensor

/-- The user-visible notifications (`show_info` calls) of one invocation. -/
inductive Note where
  | attempting
  | fileNotFound
  | notDict
  | unexpectedShapes
  | invalidPoseShape (s : List ℕ)
  | loaded
  | noPoseData
  | processingError
  deriving DecidableEq

/-- The six read-only spinboxes: rotations in degrees (ZXY order),
translations in millimeters (XYZ order). -/
structure Display where
  rotZ : ℝ
  rotX : ℝ
  rotY : ℝ
  transX : ℝ
  transY : ℝ
  transZ : ℝ

/-- The zeroed display the widget resets to at the start of every call. -/
def Display.zero : Display := ⟨0, 0, 0, 0, 0, 0⟩

/-- Row-major flat entry `k` of the 4x4 homogeneous pose built in the
rotations/translations branch: `np.eye(4)` with the ZXY rotation matrix
written into `[:3, :3]` and the translation into `[:3, 3]`. -/
noncomputable def pose_entry (rot tr : ℕ → ℝ) (k : ℕ) : ℝ :=
  if hi : k / 4 < 3 then
    if hj : k % 4 < 3 then
      from_euler_ZXY (rot 0) (rot 1) (rot 2) ⟨k / 4, hi⟩ ⟨k % 4, hj⟩
    else tr (k / 4)
  else if k % 4 = 3 then 1 else 0

/-- The tensor `torch.from_numpy(final_pose)` holding the built pose. -/
noncomputable def final_pose_of_rot_trans (rot tr : ℕ → ℝ) : Tensor :=
  ⟨[4, 4], pose_entry rot tr⟩

/-- Pose selection (source lines 141-170): take `final_pose` when present
and a tensor; otherwise, when both `rotations` and `translations` are
present and squeeze (after `atleast_1d`) to shape `(3,)`, build the pose
from them; otherwise no pose.  Also returns the notifications emitted. -/
noncomputable def select_pose (r : Record) : Option Tensor × List Note :=
  match r.final_pose with
  | some (Value.tensor t) => (some t, [])
  | _ =>
    match r.rotations, r.translations with
    | some rt, some tt =>
      if atleast_1d rt.squeeze.shape = [3] ∧ atleast_1d tt.squeeze.shape = [3] then
        (some (final_pose_of_rot_trans rt.data tt.data), [])
      else (none, [Note.unexpectedShapes])
    | _, _ => (none, [])

/-- The 3x3 rotation block `final_pose_matrix[:3, :3]` of a squeezed 4x4
pose tensor, read off the row-major flat data. -/
def rot_block (t : Tensor) : Matrix (Fin 3) (Fin 3) ℝ :=
  Matrix.of fun i j : Fin 3 => t.data (4 * i.val + j.val)

/-- The whole 4x4 matrix held by a squeezed 4x4 pose tensor. -/
def mat4 (t : Tensor) : Matrix (Fin 4) (Fin 4) ℝ :=
  Matrix.of fun i j : Fin 4 => t.data (4 * i.val + j.val)

/-- Decomposition and display update (source lines 183-196): ZXY Euler
angles in degrees into the rotation spinboxes, the translation column
`[:3, 3]` (flat entries 3, 7, 11) into the translation spinboxes. -/
noncomputable def decompose_display (t : Tensor) : Display :=
  ⟨rad2deg (as_euler_ZXY (rot_block t) 0),
   rad2deg (as_euler_ZXY (rot_block t) 1),
   rad2deg (as_euler_ZXY (rot_block t) 2),
   t.data 3, t.data 7, t.data 11⟩

/-- What reading the parameters file can yield: the file is missing,
`torch.load` raises, the result is not a dictionary, or it is a record. -/
inductive FileContent where
  | missing
  | unreadable
  | notDict
  | record (r : Record)

/-- One invocation of `xvr_pose_viewer_widget`: the display is reset to
zero, the file is read, a pose is selected, checked to squeeze to 4x4 and
decomposed.  Every failure is handled locally (the source catches all
exceptions), so the result is always a final display plus the ordered
notifications. -/
noncomputable def xvr_pose_viewer_widget (fc : FileContent) : Display × List Note :=
  match fc with
  | .missing => (Display.zero, [Note.attempting, Note.fileNotFound])
  | .unreadable => (Display.zero, [Note.attempting, Note.processingError])
  | .notDict => (Display.zero, [Note.attempting, Note.notDict])
  | .record r =>
    match select_pose r with
    | (some t, ns) =>
      if t.squeeze.shape = [4, 4] then
        (decompose_display t.squeeze, Note.attempting :: ns ++ [Note.loaded])
      else
        (Display.zero, Note.attempting :: ns ++ [Note.invalidPoseShape t.squeeze.shape])
    | (none, ns) => (Display.zero, Note.attempting :: ns ++ [Note.noPoseData])

/-- The block layout the spec describes for the built pose: the rotation
matrix in the top-left block of an identity 4x4 and the translation in
rows 0-2 of column 3 (stated from the spec, for comparison with the
code-built tensor). -/
def embed_pose (R : Matrix (Fin 3) (Fin 3) ℝ) (tr : Fin 3 → ℝ) : Matrix (Fin 4) (Fin 4) ℝ :=
  Matrix.of fun i j : Fin 4 =>
    if hi : i.val < 3 then
      if hj : j.val < 3 then R ⟨i.val, hi⟩ ⟨j.val, hj⟩
      else tr ⟨i.val, hi⟩
    else (1 : Matrix (Fin 4) (Fin 4) ℝ) i j

/-! ### Helper lemmas -/

/-- `atan2` recovers an angle in `(-π, π]` from its sine and cosine scaled
by any positive factor. -/
theorem atan2_mul_sin_cos {r θ : ℝ} (hr : 0 < r) (h1 : -Real.pi < θ) (h2 : θ ≤ Real.pi) :
    atan2 (r * Real.sin θ) (r * Real.cos θ) = θ := by
  have h : ((r * Real.cos θ : ℝ) : ℂ) + (r * Real.sin θ : ℝ) * Complex.I
      = (r : ℂ) * (Complex.cos θ + Complex.sin θ * Complex.I) := by
    rw [← Complex.ofReal_cos, ← Complex.ofReal_sin]
    push_cast
    ring
  rw [atan2, h, Complex.arg_mul_cos_add_sin_mul_I hr ⟨h1, h2⟩]

/-- `atan2 0 1 = 0`. -/
theorem atan2_zero_one : atan2 0 1 = 0 := by
  simp [atan2]

/-- `atan2 1 0 = π / 2`. -/
theorem atan2_one_zero : atan2 1 0 = Real.pi / 2 := by
  simp [atan2, Complex.arg_I]

/-- Closed form of the intrinsic ZXY rotation matrix. -/
theorem from_euler_ZXY_eq (a b c : ℝ) :
    from_euler_ZXY a b c =
      !![Real.cos a * Real.cos c - Real.sin a * Real.sin b * Real.sin c,
           -(Real.sin a * Real.cos b),
           Real.cos a * Real.sin c + Real.sin a * Real.sin b * Real.cos c;
         Real.sin a * Real.cos c + Real.cos a * Real.sin b * Real.sin c,
           Real.cos a * Real.cos b,
           Real.sin a * Real.sin c - Real.cos a * Real.sin b * Real.cos c;
         -(Real.cos b * Real.sin c),
           Real.sin b,
           Real.cos b * Real.cos c] := by
  rw [from_euler_ZXY, rotZmat, rotXmat, rotYmat, Matrix.mul_fin_three, Matrix.mul_fin_three]
  ext i j
  fin_cases i <;> fin_cases j <;> simp <;> ring

/-- `as_euler_ZXY` inverts `from_euler_ZXY` on the principal ranges:
first and third angle in `(-π, π]`, second strictly inside
`(-π/2, π/2)`. -/
theorem as_euler_from_euler (a b c : ℝ)
    (ha1 : -Real.pi < a) (ha2 : a ≤ Real.pi)
    (hb1 : -(Real.pi / 2) < b) (hb2 : b < Real.pi / 2)
    (hc1 : -Real.pi < c) (hc2 : c ≤ Real.pi) :
    as_euler_ZXY (from_euler_ZXY a b c) = ![a, b, c] := by
  have hcb : 0 < Real.cos b := Real.cos_pos_of_mem_Ioo ⟨by linarith, hb2⟩
  have hb1' : -(Real.pi / 2) ≤ b := le_of_lt hb1
  have hb2' : b ≤ Real.pi / 2 := le_of_lt hb2
  funext k
  fin_cases k
  · show atan2 (-(from_euler_ZXY a b c 0 1)) (from_euler_ZXY a b c 1 1) = a
    rw [from_euler_ZXY_eq]
    have e1 : -(!![Real.cos a * Real.cos c - Real.sin a * Real.sin b * Real.sin c,
           -(Real.sin a * Real.cos b),
           Real.cos a * Real.sin c + Real.sin a * Real.sin b * Real.cos c;
         Real.sin a * Real.cos c + Real.cos a * Real.sin b * Real.sin c,
           Real.cos a * Real.cos b,
           Real.sin a * Real.sin c - Real.cos a * Real.sin b * Real.cos c;
         -(Real.cos b * Real.sin c),
           Real.sin b,
           Real.cos b * Real.cos c] 0 1) = Real.cos b * Real.sin a := by
      simp
      ring
    rw [e1]
    have e2 : (!![Real.cos a * Real.cos c - Real.sin a * Real.sin b * Real.sin c,
           -(Real.sin a * Real.cos b),
           Real.cos a * Real.sin c + Real.sin a * Real.sin b * Real.cos c;
         Real.sin a * Real.cos c + Real.cos a * Real.sin b * Real.sin c,
           Real.cos a * Real.cos b,
           Real.sin a * Real.sin c - Real.cos a * Real.sin b * Real.cos c;
         -(Real.cos b * Real.sin c),
           Real.sin b,
           Real.cos b * Real.cos c] 1 1) = Real.cos b * Real.cos a := by
      simp
      ring
    rw [e2]
    exact atan2_mul_sin_cos hcb ha1 ha2
  · show Real.arcsin (from_euler_ZXY a b c 2 1) = b
    rw [from_euler_ZXY_eq]
    have e3 : (!![Real.cos a * Real.cos c - Real.sin a * Real.sin b * Real.sin c,
           -(Real.sin a * Real.cos b),
           Real.cos a * Real.sin c + Real.sin a * Real.sin b * Real.cos c;
         Real.sin a * Real.cos c + Real.cos a * Real.sin b * Real.sin c,
           Real.cos a * Real.cos b,
           Real.sin a * Real.sin c - Real.cos a * Real.sin b * Real.cos c;
         -(Real.cos b * Real.sin c),
           Real.sin b,
           Real.cos b * Real.cos c] 2 1) = Real.sin b := by
      simp
    rw [e3, Real.arcsin_sin hb1' hb2']
  · show atan2 (-(from_euler_ZXY a b c 2 0)) (from_euler_ZXY a b c 2 2) = c
    rw [from_euler_ZXY_eq]
    have e4 : -(!![Real.cos a * Real.cos c - Real.sin a * Real.sin b * Real.sin c,
           -(Real.sin a * Real.cos b),
           Real.cos a * Real.sin c + Real.sin a * Real.sin b * Real.cos c;
         Real.sin a * Real.cos c + Real.cos a * Real.sin b * Real.sin c,
           Real.cos a * Real.cos b,
           Real.sin a * Real.sin c - Real.cos a * Real.sin b * Real.cos c;
         -(Real.cos b * Real.sin c),
           Real.sin b,
           Real.cos b * Real.cos c] 2 0) = Real.cos b * Real.sin c := by
      simp
    rw [e4]
    have e5 : (!![Real.cos a * Real.cos c - Real.sin a * Real.sin b * Real.sin c,
           -(Real.sin a * Real.cos b),
           Real.cos a * Real.sin c + Real.sin a * Real.sin b * Real.cos c;
         Real.sin a * Real.cos c + Real.cos a * Real.sin b * Real.sin c,
           Real.cos a * Real.cos b,
           Real.sin a * Real.sin c - Real.cos a * Real.sin b * Real.cos c;
         -(Real.cos b * Real.sin c),
           Real.sin b,
           Real.cos b * Real.cos c] 2 2) = Real.cos b * Real.cos c := by
      simp
    rw [e5]
    exact atan2_mul_sin_cos hcb hc1 hc2

/-- The rotations/translations branch fires on a record with two plain
3-vectors and no `final_pose`. -/
theorem select_pose_build (rot tr : ℕ → ℝ) :
    select_pose ⟨none, some ⟨[3], rot⟩, some ⟨[3], tr⟩⟩ =
      (some (final_pose_of_rot_trans rot tr), []) := rfl

/-- The rotation block of the built pose is the ZXY matrix itself. -/
theorem rot_block_build (rot tr : ℕ → ℝ) :
    rot_block (final_pose_of_rot_trans rot tr) =
      from_euler_ZXY (rot 0) (rot 1) (rot 2) := by
  ext i j
  fin_cases i <;> fin_cases j <;> rfl

/-- Full run of the widget on a record with two plain 3-vectors. -/
theorem widget_build (rot tr : ℕ → ℝ) :
    xvr_pose_viewer_widget (.record ⟨none, some ⟨[3], rot⟩, some ⟨[3], tr⟩⟩) =
      (decompose_display (final_pose_of_rot_trans rot tr),
       [Note.attempting, Note.loaded]) := rfl

/-- Decomposing the built pose displays the ZXY angles of its rotation
block (in degrees) and the translation entries. -/
theorem decompose_build (rot tr : ℕ → ℝ) :
    decompose_display (final_pose_of_rot_trans rot tr) =
      ⟨rad2deg (as_euler_ZXY (from_euler_ZXY (rot 0) (rot 1) (rot 2)) 0),
       rad2deg (as_euler_ZXY (from_euler_ZXY (rot 0) (rot 1) (rot 2)) 1),
       rad2deg (as_euler_ZXY (from_euler_ZXY (rot 0) (rot 1) (rot 2)) 2),
       tr 0, tr 1, tr 2⟩ := by
  rw [decompose_display, rot_block_build]
  rfl

/-- Degree conversion at zero. -/
theorem rad2deg_zero : rad2deg 0 = 0 := by
  simp [rad2deg]

/-- Degree conversion at a quarter turn. -/
theorem rad2deg_pi_div_two : rad2deg (Real.pi / 2) = 90 := by
  rw [rad2deg]
  field_simp
  ring

/-! ### Claim theorems -/

/-- C1 (amended): for Euler angles in the principal ZXY ranges (first and
third angle in `(-π, π]`, second strictly between `-π/2` and `π/2`) and
any translation 3-vector, composing them into a 4x4 pose via the
rotations/translations branch of the load and decomposing it again
displays exactly the same three angles converted to degrees and the same
translation. -/
theorem load_decompose_roundtrip (rot tr : ℕ → ℝ)
    (hz1 : -Real.pi < rot 0) (hz2 : rot 0 ≤ Real.pi)
    (hx1 : -(Real.pi / 2) < rot 1) (hx2 : rot 1 < Real.pi / 2)
    (hy1 : -Real.pi < rot 2) (hy2 : rot 2 ≤ Real.pi) :
    xvr_pose_viewer_widget (.record ⟨none, some ⟨[3], rot⟩, some ⟨[3], tr⟩⟩) =
      (⟨rad2deg (rot 0), rad2deg (rot 1), rad2deg (rot 2), tr 0, tr 1, tr 2⟩,
       [Note.attempting, Note.loaded]) := by
  rw [widget_build, decompose_build,
    as_euler_from_euler (rot 0) (rot 1) (rot 2) hz1 hz2 hx1 hx2 hy1 hy2]
  rfl

/-- Witness for C1 at the zero angles and zero translation. -/
theorem load_decompose_roundtrip_witness :
    xvr_pose_viewer_widget (.record ⟨none, some ⟨[3], fun _ => 0⟩, some ⟨[3], fun _ => 0⟩⟩) =
      (⟨rad2deg 0, rad2deg 0, rad2deg 0, 0, 0, 0⟩, [Note.attempting, Note.loaded]) :=
  load_decompose_roundtrip (fun _ => 0) (fun _ => 0)
    (neg_lt_zero.mpr Real.pi_pos) Real.pi_pos.le
    (neg_lt_zero.mpr Real.pi_div_two_pos) Real.pi_div_two_pos
    (neg_lt_zero.mpr Real.pi_pos) Real.pi_pos.le

/-- C1 counterexample: with the third angle `2π` radians (i.e. 360
degrees, outside the principal range), the decomposition displays 0
degrees, not 360, so the round trip fails as universally stated. -/
theorem load_decompose_roundtrip_out_of_range :
    (xvr_pose_viewer_widget (.record ⟨none,
        some ⟨[3], fun k => if k = 2 then 2 * Real.pi else 0⟩,
        some ⟨[3], fun _ => 0⟩⟩)).1.rotY = 0 ∧
    rad2deg (2 * Real.pi) = 360 ∧ (0 : ℝ) ≠ 360 := by
  refine ⟨?_, ?_, by norm_num⟩
  · rw [widget_build, decompose_build]
    show rad2deg (as_euler_ZXY (from_euler_ZXY 0 0 (2 * Real.pi)) 2) = 0
    have hM20 : from_euler_ZXY 0 0 (2 * Real.pi) 2 0 = 0 := by
      rw [from_euler_ZXY_eq]
      show -(Real.cos 0 * Real.sin (2 * Real.pi)) = 0
      simp [Real.sin_two_pi]
    have hM22 : from_euler_ZXY 0 0 (2 * Real.pi) 2 2 = 1 := by
      rw [from_euler_ZXY_eq]
      show Real.cos 0 * Real.cos (2 * Real.pi) = 1
      simp [Real.cos_two_pi]
    have h2 : as_euler_ZXY (from_euler_ZXY 0 0 (2 * Real.pi)) 2 = 0 := by
      show atan2 (-(from_euler_ZXY 0 0 (2 * Real.pi) 2 0))
        (from_euler_ZXY 0 0 (2 * Real.pi) 2 2) = 0
      rw [hM20, hM22, neg_zero, atan2_zero_one]
    rw [h2, rad2deg_zero]
  · rw [rad2deg]
    field_simp
    ring

/-- C7: loading the record with rotations `[0, 0, π/2]` (radians, ZXY) and
translations `[10, 0, 0]` displays Z = 0, X = 0, Y = 90 degrees and
translation (10, 0, 0) millimeters. -/
theorem quarter_turn_scenario :
    xvr_pose_viewer_widget (.record ⟨none,
        some ⟨[3], fun k => if k = 2 then Real.pi / 2 else 0⟩,
        some ⟨[3], fun k => if k = 0 then 10 else 0⟩⟩) =
      (⟨0, 0, 90, 10, 0, 0⟩, [Note.attempting, Note.loaded]) := by
  rw [widget_build, decompose_build]
  have key := as_euler_from_euler 0 0 (Real.pi / 2)
    (neg_lt_zero.mpr Real.pi_pos) Real.pi_pos.le
    (neg_lt_zero.mpr Real.pi_div_two_pos) Real.pi_div_two_pos
    (by linarith [Real.pi_pos]) (by linarith [Real.pi_pos])
  norm_num [key, rad2deg_zero, rad2deg_pi_div_two]

/-- The matrix held by the built pose tensor has exactly the block layout
the spec describes. -/
theorem mat4_build (rot tr : ℕ → ℝ) :
    mat4 (final_pose_of_rot_trans rot tr) =
      embed_pose (from_euler_ZXY (rot 0) (rot 1) (rot 2)) (fun i => tr i.val) := by
  ext i j
  fin_cases i <;> fin_cases j <;> rfl

/-- Embedding the identity rotation block and a zero translation into the
block layout of the spec gives the 4x4 identity. -/
theorem embed_pose_one : embed_pose 1 (fun _ => (0 : ℝ)) = 1 := by
  ext i j
  fin_cases i <;> fin_cases j <;> rfl

/-- C6: loading a record with `rotations = [0,0,0]` and
`translations = [0,0,0]` selects the built pose and that pose is exactly
the 4x4 identity matrix. -/
theorem zero_rot_trans_identity :
    (select_pose ⟨none, some ⟨[3], fun _ => 0⟩, some ⟨[3], fun _ => 0⟩⟩).1 =
      some (final_pose_of_rot_trans (fun _ => 0) (fun _ => 0)) ∧
    mat4 (final_pose_of_rot_trans (fun _ => 0) (fun _ => 0)) = 1 := by
  refine ⟨rfl, ?_⟩
  have hR : from_euler_ZXY 0 0 0 = 1 := by
    rw [from_euler_ZXY_eq, Matrix.one_fin_three]
    norm_num
  calc mat4 (final_pose_of_rot_trans (fun _ => 0) (fun _ => 0))
      = embed_pose (from_euler_ZXY 0 0 0) (fun _ => 0) := mat4_build _ _
    _ = embed_pose 1 (fun _ => 0) := by rw [hR]
    _ = 1 := embed_pose_one

/-- C3: when `final_pose` is present and is a tensor whose squeeze has
shape 4x4, the load returns that tensor itself as the pose — no
rotation/translation reconstruction — and the widget decomposes exactly
its squeeze, whatever the rotations/translations entries hold. -/
theorem final_pose_bypasses_reconstruction (ro tr : Option Tensor) (t : Tensor)
    (hsq : t.squeeze.shape = [4, 4]) :
    select_pose ⟨some (Value.tensor t), ro, tr⟩ = (some t, []) ∧
    xvr_pose_viewer_widget (.record ⟨some (Value.tensor t), ro, tr⟩) =
      (decompose_display t.squeeze, [Note.attempting, Note.loaded]) := by
  refine ⟨rfl, ?_⟩
  simp [xvr_pose_viewer_widget, select_pose, hsq]

/-- Witness for C3: a 4x4 `final_pose` next to 3-vector rotations and
translations entries is used directly. -/
theorem final_pose_bypasses_reconstruction_witness :
    select_pose ⟨some (Value.tensor ⟨[4, 4], fun _ => 0⟩),
        some ⟨[3], fun _ => 0⟩, some ⟨[3], fun _ => 0⟩⟩ =
      (some ⟨[4, 4], fun _ => 0⟩, []) ∧
    xvr_pose_viewer_widget (.record ⟨some (Value.tensor ⟨[4, 4], fun _ => 0⟩),
        some ⟨[3], fun _ => 0⟩, some ⟨[3], fun _ => 0⟩⟩) =
      (decompose_display (Tensor.squeeze ⟨[4, 4], fun _ => 0⟩),
       [Note.attempting, Note.loaded]) :=
  final_pose_bypasses_reconstruction (some ⟨[3], fun _ => 0⟩) (some ⟨[3], fun _ => 0⟩)
    ⟨[4, 4], fun _ => 0⟩ rfl

/-- C4: without a usable `final_pose` but with rotations and translations
both squeezing to 3-vectors, the load builds the pose: the ZXY rotation
matrix of the rotation vector in the top-left block of an identity 4x4
and the translation vector in rows 0-2 of column 3. -/
theorem rot_trans_branch_builds_block_pose (fp : Option Value) (rt tt : Tensor)
    (hfp : ∀ u, fp ≠ some (Value.tensor u))
    (hrs : atleast_1d rt.squeeze.shape = [3])
    (hts : atleast_1d tt.squeeze.shape = [3]) :
    (select_pose ⟨fp, some rt, some tt⟩).1 =
      some (final_pose_of_rot_trans rt.data tt.data) ∧
    mat4 (final_pose_of_rot_trans rt.data tt.data) =
      embed_pose (from_euler_ZXY (rt.data 0) (rt.data 1) (rt.data 2))
        (fun i => tt.data i.val) := by
  refine ⟨?_, mat4_build _ _⟩
  cases fp with
  | none => simp [select_pose, hrs, hts]
  | some v =>
    cases v with
    | tensor u => exact absurd rfl (hfp u)
    | nonTensor => simp [select_pose, hrs, hts]

/-- Witness for C4: zero vectors next to a non-tensor `final_pose`. -/
theorem rot_trans_branch_builds_block_pose_witness :
    (select_pose ⟨some Value.nonTensor, some ⟨[3], fun _ => 0⟩,
        some ⟨[3], fun _ => 0⟩⟩).1 =
      some (final_pose_of_rot_trans (fun _ => 0) (fun _ => 0)) ∧
    mat4 (final_pose_of_rot_trans (fun _ => 0) (fun _ => 0)) =
      embed_pose (from_euler_ZXY 0 0 0) (fun _ => 0) :=
  rot_trans_branch_builds_block_pose (some Value.nonTensor)
    ⟨[3], fun _ => 0⟩ ⟨[3], fun _ => 0⟩
    (fun u h => by simp at h) rfl rfl

/-- C2 (amended): a record without a usable `final_pose` whose rotations
entry does not squeeze to a 3-vector (translations present) makes the
load surface a user-visible shape warning with a generic message — one
that does not carry the offending shape — construct no pose, and leave
the display at zero; nothing is truncated or coerced. -/
theorem bad_rot_shape_generic_warning (fp : Option Value) (rt tt : Tensor)
    (hfp : ∀ u, fp ≠ some (Value.tensor u))
    (hrs : atleast_1d rt.squeeze.shape ≠ [3]) :
    xvr_pose_viewer_widget (.record ⟨fp, some rt, some tt⟩) =
      (Display.zero, [Note.attempting, Note.unexpectedShapes, Note.noPoseData]) := by
  have hsel : select_pose ⟨fp, some rt, some tt⟩ = (none, [Note.unexpectedShapes]) := by
    cases fp with
    | none => simp [select_pose, hrs]
    | some v =>
      cases v with
      | tensor u => exact absurd rfl (hfp u)
      | nonTensor => simp [select_pose, hrs]
  simp [xvr_pose_viewer_widget, hsel]

/-- Witness for C2 (amended): rotations of squeezed length 4. -/
theorem bad_rot_shape_generic_warning_witness :
    xvr_pose_viewer_widget (.record ⟨none, some ⟨[4], fun _ => 0⟩,
        some ⟨[3], fun _ => 0⟩⟩) =
      (Display.zero, [Note.attempting, Note.unexpectedShapes, Note.noPoseData]) :=
  bad_rot_shape_generic_warning none ⟨[4], fun _ => 0⟩ ⟨[3], fun _ => 0⟩
    (fun u h => by simp at h) (by decide)

/-- C2 counterexample: for a rotations entry of squeezed length 4 the
only user-visible messages are the generic shape warning and the no-pose
warning; no notification carrying the offending shape is emitted (a
shape-bearing message exists only on the final_pose path). -/
theorem bad_rot_shape_message_lacks_shape :
    (xvr_pose_viewer_widget (.record ⟨none, some ⟨[4], fun _ => 0⟩,
        some ⟨[3], fun _ => 0⟩⟩)).2 =
      [Note.attempting, Note.unexpectedShapes, Note.noPoseData] ∧
    Note.invalidPoseShape [4] ∉ (xvr_pose_viewer_widget (.record ⟨none,
        some ⟨[4], fun _ => 0⟩, some ⟨[3], fun _ => 0⟩⟩)).2 := by
  have h : (xvr_pose_viewer_widget (.record ⟨none, some ⟨[4], fun _ => 0⟩,
      some ⟨[3], fun _ => 0⟩⟩)).2 =
      [Note.attempting, Note.unexpectedShapes, Note.noPoseData] := rfl
  refine ⟨h, ?_⟩
  rw [h]
  decide

/-- C5: a record with neither a usable `final_pose` nor both a rotations
and a translations entry yields the NotFound outcome: the display stays
zero, a warning is shown, and (the run being a total function) no
exception propagates. -/
theorem missing_keys_not_found (fp : Option Value) (ro tr : Option Tensor)
    (hfp : ∀ u, fp ≠ some (Value.tensor u))
    (hpair : ro = none ∨ tr = none) :
    xvr_pose_viewer_widget (.record ⟨fp, ro, tr⟩) =
      (Display.zero, [Note.attempting, Note.noPoseData]) := by
  have hsel : select_pose ⟨fp, ro, tr⟩ = (none, []) := by
    cases fp with
    | none =>
      rcases hpair with h | h
      · subst h
        rfl
      · subst h
        cases ro <;> rfl
    | some v =>
      cases v with
      | tensor u => exact absurd rfl (hfp u)
      | nonTensor =>
        rcases hpair with h | h
        · subst h
          rfl
        · subst h
          cases ro <;> rfl
  simp [xvr_pose_viewer_widget, hsel]

/-- Witness for C5: the empty record. -/
theorem missing_keys_not_found_witness :
    xvr_pose_viewer_widget (.record ⟨none, none, none⟩) =
      (Display.zero, [Note.attempting, Note.noPoseData]) :=
  missing_keys_not_found none none none (fun u h => by simp at h) (Or.inl rfl)

/-- C8: whenever an invocation does not reach the loaded state — file
missing, file unreadable, contents not a dictionary, no pose data, or a
shape failure — the run still returns normally (the model is a total
function, as the source catches every exception) and the final display
is entirely zero. -/
theorem failure_leaves_display_zero (fc : FileContent)
    (hfail : Note.loaded ∉ (xvr_pose_viewer_widget fc).2) :
    (xvr_pose_viewer_widget fc).1 = Display.zero := by
  cases fc with
  | missing => rfl
  | unreadable => rfl
  | notDict => rfl
  | record r =>
    rcases hsel : select_pose r with ⟨op, ns⟩
    cases op with
    | none => simp [xvr_pose_viewer_widget, hsel]
    | some t =>
      by_cases hsh : t.squeeze.shape = [4, 4]
      · exfalso
        apply hfail
        simp [xvr_pose_viewer_widget, hsel, hsh]
      · simp [xvr_pose_viewer_widget, hsel, hsh]

/-- Witness for C8: the missing-file invocation. -/
theorem failure_leaves_display_zero_witness :
    (xvr_pose_viewer_widget FileContent.missing).1 = Display.zero :=
  failure_leaves_display_zero FileContent.missing (by decide)

/-- C9: a `final_pose` entry that is not a tensor is silently skipped,
with no shape or read error: both the pose selection and the whole run
coincide with those on the same record without the entry. -/
theorem non_tensor_final_pose_ignored (ro tr : Option Tensor) :
    select_pose ⟨some Value.nonTensor, ro, tr⟩ = select_pose ⟨none, ro, tr⟩ ∧
    xvr_pose_viewer_widget (.record ⟨some Value.nonTensor, ro, tr⟩) =
      xvr_pose_viewer_widget (.record ⟨none, ro, tr⟩) :=
  ⟨rfl, rfl⟩

/-- On a record without a direct `final_pose` tensor, no invalid-shape
notification can be emitted. -/
theorem no_invalid_shape_without_tensor (ro tr : Option Tensor) (s : List ℕ) :
    Note.invalidPoseShape s ∉ (xvr_pose_viewer_widget (.record ⟨none, ro, tr⟩)).2 := by
  cases ro with
  | none => simp [xvr_pose_viewer_widget, select_pose]
  | some rt =>
    cases tr with
    | none => simp [xvr_pose_viewer_widget, select_pose]
    | some tt =>
      by_cases h1 : atleast_1d rt.squeeze.shape = [3]
      · by_cases h2 : atleast_1d tt.squeeze.shape = [3]
        · have hsel : select_pose ⟨none, some rt, some tt⟩ =
              (some (final_pose_of_rot_trans rt.data tt.data), []) := by
            simp [select_pose, h1, h2]
          simp [xvr_pose_viewer_widget, hsel, final_pose_of_rot_trans, Tensor.squeeze]
        · have hsel : select_pose ⟨none, some rt, some tt⟩ =
              (none, [Note.unexpectedShapes]) := by
            simp [select_pose, h1, h2]
          simp [xvr_pose_viewer_widget, hsel]
      · have hsel : select_pose ⟨none, some rt, some tt⟩ =
            (none, [Note.unexpectedShapes]) := by
          simp [select_pose, h1]
        simp [xvr_pose_viewer_widget, hsel]

/-- C10: the pose built by the rotations/translations branch always
squeezes to shape 4x4, so the invalid-shape error branch is unreachable
for constructed poses: an invalid-shape notification implies the pose
came from a `final_pose` tensor read directly from the record. -/
theorem built_pose_shape_safe :
    (∀ rot tr : ℕ → ℝ, (final_pose_of_rot_trans rot tr).squeeze.shape = [4, 4]) ∧
    ∀ (r : Record) (s : List ℕ),
      Note.invalidPoseShape s ∈ (xvr_pose_viewer_widget (.record r)).2 →
      ∃ t, r.final_pose = some (Value.tensor t) := by
  refine ⟨fun rot tr => rfl, ?_⟩
  intro r s hmem
  obtain ⟨fp, ro, tr⟩ := r
  cases fp with
  | some v =>
    cases v with
    | tensor t => exact ⟨t, rfl⟩
    | nonTensor => exact absurd hmem (no_invalid_shape_without_tensor ro tr s)
  | none => exact absurd hmem (no_invalid_shape_without_tensor ro tr s)

/-- Witness for C10: an invalid-shape notification observed on a record
whose `final_pose` is a direct tensor of bad shape. -/
theorem built_pose_shape_safe_witness :
    ∃ t, (Record.mk (some (Value.tensor ⟨[5], fun _ => 0⟩)) none none).final_pose =
      some (Value.tensor t) :=
  built_pose_shape_safe.2 ⟨some (Value.tensor ⟨[5], fun _ => 0⟩), none, none⟩ [5]
    (by decide)

end XVR
